import Mathlib

/-!
Verification of `pkg/rtc/config.go`: WebRTC transport configuration
assembly, NAT 1:1 IP resolution, and the interface/IP inclusion-exclusion
filters. The Go code is shallowly embedded: pure closures become Lean
functions, the external collaborator calls (STUN probes, socket binds,
CIDR parsing, local-interface enumeration) are supplied as explicit
parameters, and machine integers are `Nat` with explicit `% 2^16` where
the source truncates to `uint16`.
-/

namespace RtcCfg

/-! ### String constants from pion/sdp, pion/webrtc and config.go -/

def SDESMidURI : String := "urn:ietf:params:rtp-hdrext:sdes:mid"

def SDESRTPStreamIDURI : String := "urn:ietf:params:rtp-hdrext:sdes:rtp-stream-id"

def AudioLevelURI : String := "urn:ietf:params:rtp-hdrext:ssrc-audio-level"

def TransportCCURI : String :=
  "http://www.ietf.org/id/draft-holmer-rmcat-transport-wide-cc-extensions-01"

def ABSSendTimeURI : String := "http://www.webrtc.org/experiments/rtp-hdrext/abs-send-time"

def frameMarking : String := "urn:ietf:params:rtp-hdrext:framemarking"

def ddExtensionUrl : String :=
  "https://aomediacodec.github.io/av1-rtp-spec/#dependency-descriptor-rtp-header-extension"

def TypeRTCPFBTransportCC : String := "transport-cc"

def TypeRTCPFBGoogREMB : String := "goog-remb"

def TypeRTCPFBCCM : String := "ccm"

def TypeRTCPFBNACK : String := "nack"

/-! ### Network filters (config.go lines 398-466) -/

/-- The interface-name filter closure returned by `InterfaceFilterFromConf`
(config.go lines 398-422), closed over the include/exclude name sets. -/
def InterfaceFilterFromConf (includes excludes : List String) (s : String) : Bool :=
  if includes.length > 0 then
    includes.any fun iface => iface == s
  else
    if excludes.length > 0 then
      if excludes.any fun iface => iface == s then false else true
    else
      true

/-- A parsed CIDR block, as Go's `net.IPNet` over a 32-bit address space:
`net.ParseCIDR` returns the network address already masked, and
`net.IPNet.Contains` masks the queried address and compares. -/
structure IPNet where
  ip : Nat
  mask : Nat
deriving DecidableEq, Repr

def IPNet.containsIP (n : IPNet) (addr : Nat) : Bool :=
  addr &&& n.mask == n.ip

/-- The IP filter closure returned by `IPFilterFromConf`
(config.go lines 447-465), closed over the parsed include/exclude nets. -/
def ipFilterFromNets (includes excludes : List IPNet) (addr : Nat) : Bool :=
  if includes.length > 0 then
    includes.any fun ipn => ipn.containsIP addr
  else
    if excludes.length > 0 then
      if excludes.any fun ipn => ipn.containsIP addr then false else true
    else
      true

/-- CIDR parsing of one include/exclude list (config.go lines 427-443);
`parse` is the external `net.ParseCIDR`, `none` standing for a parse
error, which aborts construction. -/
def parseNets (parse : String → Option IPNet) : List String → Except String (List IPNet)
  | [] => .ok []
  | s :: rest =>
    match parse s with
    | none => .error ("invalid CIDR: " ++ s)
    | some n =>
      match parseNets parse rest with
      | .error e => .error e
      | .ok ns => .ok (n :: ns)

/-- `IPFilterFromConf` (config.go lines 424-466): parse the include set,
then the exclude set, and return the filter closure; any parse error is
returned instead of a partial filter. -/
def IPFilterFromConf (parse : String → Option IPNet) (includes excludes : List String) :
    Except String (Nat → Bool) :=
  match parseNets parse includes with
  | .error e => .error e
  | .ok incNets =>
    match parseNets parse excludes with
    | .error e => .error e
    | .ok excNets => .ok (ipFilterFromNets incNets excNets)

/-! ### NAT 1:1 IP resolver (config.go lines 289-396) -/

/-- Outcome of one STUN binding probe (`config.GetExternalIP`) for a given
(local IP, port) bind: a discovered external IP, an "address already in
use" bind failure, or any other error. -/
inductive ProbeOutcome where
  | success (externalIP : String)
  | addrInUse
  | otherError
deriving DecidableEq, Repr

/-- One local IP's probe goroutine body (config.go lines 324-340): iterate
the candidate ports in order; a success reports the external IP and stops,
"address already in use" advances to the next port, any other error stops
without a result, as does port exhaustion. Returns the ports actually
attempted together with the reported result. -/
def probeRun (outcome : Nat → ProbeOutcome) : List Nat → List Nat × Option String
  | [] => ([], none)
  | p :: ps =>
    match outcome p with
    | .success e => ([p], some e)
    | .addrInUse =>
      let r := probeRun outcome ps
      (p :: r.1, r.2)
    | .otherError => ([p], none)

/-- Candidate UDP port selection (config.go lines 304-314). `r` supplies
the successive `rand.Intn` draws; the source's `uint16` conversions and
`uint16` subtraction are modelled with explicit mod 2^16 arithmetic. -/
def udpPortsForConf (rangeStart rangeEnd udpPort : Nat) (r : Nat → Nat) : List Nat :=
  if rangeStart ≠ 0 ∧ rangeEnd ≠ 0 then
    (List.range 5).map fun i =>
      r i % ((65536 + rangeEnd % 65536 - rangeStart % 65536) % 65536) + rangeStart % 65536
  else if udpPort ≠ 0 then [udpPort]
  else [0]

/-- First-match lookup in the association-list model of Go's
`map[string]string`. -/
def mapLookup (m : List (String × String)) (k : String) : Option String :=
  match m with
  | [] => none
  | p :: rest => if p.1 == k then some p.2 else mapLookup rest k

/-- Map assignment `m[k] = v`: replaces the binding when the key is
present, appends it otherwise (map iteration is modelled in insertion
order). -/
def mapInsert (m : List (String × String)) (k v : String) : List (String × String) :=
  match m with
  | [] => [(k, v)]
  | p :: rest => if p.1 == k then (k, v) :: rest else p :: mapInsert rest k v

/-- One step of the collector loop (config.go lines 351-363): the first
writer for an external IP wins, a later duplicate is dropped. -/
def collectStep (natMapping : List (String × String)) (mapping : String × String) :
    List (String × String) :=
  match mapLookup natMapping mapping.1 with
  | some _ => natMapping
  | none => mapInsert natMapping mapping.1 mapping.2

/-- The collector loop (config.go lines 348-368): fold the
(externalIP, localIP) results in arrival order into `natMapping`. -/
def collectMappings (arrived : List (String × String)) : List (String × String) :=
  arrived.foldl collectStep []

/-- The self-mapping fallback loop (config.go lines 377-389): every local
IP not yet present as a value is assigned `natMapping[local] = local`. -/
def addSelfMappings (localIPs : List String) (natMapping : List (String × String)) :
    List (String × String) :=
  match localIPs with
  | [] => natMapping
  | lip :: rest =>
    if natMapping.any fun p => p.2 == lip then
      addSelfMappings rest natMapping
    else
      addSelfMappings rest (mapInsert natMapping lip lip)

/-- The final `natMapping` of one resolution run: collected results plus
self-mapping fallback. -/
def natMappingFinal (localIPs : List String) (arrived : List (String × String)) :
    List (String × String) :=
  addSelfMappings localIPs (collectMappings arrived)

/-- `getNAT1to1IPsForConf` (config.go lines 289-396) with its external
collaborators abstracted: `localIPsRes` is the outcome of
`config.GetLocalIPAddresses`, and `arrived` the (externalIP, localIP)
pairs read from `addrCh` before the deadline, in arrival order. `none`
models Go's nil slice result. -/
def getNAT1to1IPsForConf (localIPsRes : Except String (List String))
    (arrived : List (String × String)) : Except String (Option (List String)) :=
  match localIPsRes with
  | .error e => .error e
  | .ok localIPs =>
    let natMapping := collectMappings arrived
    if natMapping.length = 0 then
      .ok none
    else
      .ok (some ((addSelfMappings localIPs natMapping).map fun p => p.1 ++ "/" ++ p.2))

/-- What can arrive on `addrCh` (config.go lines 316-341): each result is
reported by the probe goroutine of a distinct local IP that passed the IP
filter, and carries that probe's discovered external IP. -/
def ArrivedConsistent (localIPs : List String) (ipFilter : String → Bool)
    (outcome : String → Nat → ProbeOutcome) (ports : List Nat)
    (arrived : List (String × String)) : Prop :=
  (∀ m ∈ arrived, m.2 ∈ localIPs.filter ipFilter ∧
    (probeRun (outcome m.2) ports).2 = some m.1) ∧
  (arrived.map Prod.snd).Nodup

/-! ### Transport configuration builder (config.go lines 30-287) -/

/-- Go's `webrtc.RTCPFeedback`: a feedback type with its parameter. -/
structure RTCPFeedback where
  typ : String
  parameter : String
deriving DecidableEq, Repr

structure RTPHeaderExtensionConfig where
  audio : List String
  video : List String
deriving DecidableEq, Repr

structure RTCPFeedbackConfig where
  audio : List RTCPFeedback
  video : List RTCPFeedback
deriving DecidableEq, Repr

structure DirectionConfig where
  rtpHeaderExtension : RTPHeaderExtensionConfig
  rtcpFeedback : RTCPFeedbackConfig
  strictACKs : Bool
deriving DecidableEq, Repr

structure ReceiverConfig where
  packetBufferSize : Nat
deriving DecidableEq, Repr

structure InterfacesConfig where
  includes : List String
  excludes : List String
deriving DecidableEq, Repr

structure IPsConfig where
  includes : List String
  excludes : List String
deriving DecidableEq, Repr

structure CongestionControlConfig where
  useSendSideBWE : Bool
deriving DecidableEq, Repr

/-- The `RTCConfig` fields read by `NewWebRTCConfig` and
`getNAT1to1IPsForConf`. -/
structure RTCConfig where
  interfaces : InterfacesConfig
  ips : IPsConfig
  useMDNS : Bool
  useExternalIP : Bool
  nodeIP : String
  nodeIPAutoGenerated : Bool
  packetBufferSize : Nat
  forceTCP : Bool
  icePortRangeStart : Nat
  icePortRangeEnd : Nat
  udpPort : Nat
  tcpPort : Nat
  enableLoopbackCandidate : Bool
  useICELite : Bool
  stunServers : List String
  strictACKs : Bool
  congestionControl : CongestionControlConfig
deriving DecidableEq, Repr

structure Config where
  rtc : RTCConfig
  development : Bool
deriving DecidableEq, Repr

/-- Opaque handle for an `ice.UDPMux` constructed by
`ice.NewMultiUDPMuxFromPort` (external collaborator). -/
structure UDPMuxHandle where
  id : Nat
deriving DecidableEq, Repr

/-- Opaque handle for the `net.TCPListener` returned by `net.ListenTCP`
(external collaborator). -/
structure TCPListenerHandle where
  id : Nat
deriving DecidableEq, Repr

inductive NetworkType where
  | udp4
  | udp6
  | tcp4
  | tcp6
deriving DecidableEq, Repr

/-- Outcomes of the external collaborator calls made during one
`NewWebRTCConfig` run: CIDR parsing, `SetEphemeralUDPPortRange`,
`ice.NewMultiUDPMuxFromPort`, `net.ListenTCP`,
`config.GetLocalIPAddresses`, and the STUN results collected by the
resolver. -/
structure ExternalEnv where
  parseCIDR : String → Option IPNet
  ephemeralPortRangeResult : Except String Unit
  newMultiUDPMuxResult : Except String UDPMuxHandle
  listenTCPResult : Except String TCPListenerHandle
  localIPsResult : Except String (List String)
  arrived : List (String × String)

/-- The returned `WebRTCConfig` struct (config.go lines 30-41); the
`Configuration`, `SettingEngine` and `BufferFactory` handles are external
library state and are not modelled. -/
structure WebRTCConfig where
  receiver : ReceiverConfig
  udpMux : Option UDPMuxHandle
  tcpMuxListener : Option TCPListenerHandle
  publisher : DirectionConfig
  subscriber : DirectionConfig
  nat1To1IPs : Option (List String)
  useMDNS : Bool
deriving DecidableEq, Repr

/-- The publisher direction profile (config.go lines 196-223). -/
def publisherConfig : DirectionConfig where
  strictACKs := true
  rtpHeaderExtension :=
    { audio := [SDESMidURI, SDESRTPStreamIDURI, AudioLevelURI]
      video := [SDESMidURI, SDESRTPStreamIDURI, TransportCCURI, frameMarking, ddExtensionUrl] }
  rtcpFeedback :=
    { audio := [⟨TypeRTCPFBNACK, ""⟩]
      video := [⟨TypeRTCPFBTransportCC, ""⟩, ⟨TypeRTCPFBCCM, "fir"⟩,
        ⟨TypeRTCPFBNACK, ""⟩, ⟨TypeRTCPFBNACK, "pli"⟩] }

/-- The subscriber direction profile (config.go lines 226-245): the base
profile, extended with the transport-wide-CC extension and feedback when
send-side bandwidth estimation is enabled, and with abs-send-time and
REMB otherwise. -/
def subscriberConfigFor (strictACKs useSendSideBWE : Bool) : DirectionConfig :=
  let base : DirectionConfig :=
    { strictACKs := strictACKs
      rtpHeaderExtension := { audio := [], video := [ddExtensionUrl] }
      rtcpFeedback :=
        { audio := []
          video := [⟨TypeRTCPFBCCM, "fir"⟩, ⟨TypeRTCPFBNACK, ""⟩, ⟨TypeRTCPFBNACK, "pli"⟩] } }
  if useSendSideBWE then
    { base with
      rtpHeaderExtension :=
        { base.rtpHeaderExtension with
          video := base.rtpHeaderExtension.video ++ [TransportCCURI] }
      rtcpFeedback :=
        { base.rtcpFeedback with
          video := base.rtcpFeedback.video ++ [⟨TypeRTCPFBTransportCC, ""⟩] } }
  else
    { base with
      rtpHeaderExtension :=
        { base.rtpHeaderExtension with
          video := base.rtpHeaderExtension.video ++ [ABSSendTimeURI] }
      rtcpFeedback :=
        { base.rtcpFeedback with
          video := base.rtcpFeedback.video ++ [⟨TypeRTCPFBGoogREMB, ""⟩] } }

/-- `NewWebRTCConfig` (config.go lines 70-274), external calls supplied by
`env`. Note on line 151 of the source: `udpMux, err := ice.NewMultiUDPMuxFromPort(...)`
declares fresh variables inside the inner block, shadowing the outer
`udpMux` declared on line 124; the outer variable is therefore never
assigned, which this embedding reflects by leaving the outer `udpMux`
untouched in that branch. -/
def NewWebRTCConfig (conf : Config) (externalIP : String) (env : ExternalEnv) :
    Except String WebRTCConfig :=
  let rtcConf := conf.rtc
  let _ifFilter : Option (String → Bool) :=
    if rtcConf.interfaces.includes.length ≠ 0 ∨ rtcConf.interfaces.excludes.length ≠ 0 then
      some (InterfaceFilterFromConf rtcConf.interfaces.includes rtcConf.interfaces.excludes)
    else none
  let ipFilterRes : Except String (Option (Nat → Bool)) :=
    if rtcConf.ips.includes.length ≠ 0 ∨ rtcConf.ips.excludes.length ≠ 0 then
      match IPFilterFromConf env.parseCIDR rtcConf.ips.includes rtcConf.ips.excludes with
      | .error e => .error e
      | .ok f => .ok (some f)
    else .ok none
  match ipFilterRes with
  | .error e => .error e
  | .ok _ipFilter =>
    let natRes : Except String (Option (List String)) :=
      if externalIP ≠ "" ∧
          (rtcConf.useExternalIP ∨ (rtcConf.nodeIP ≠ "" ∧ ¬rtcConf.nodeIPAutoGenerated)) then
        if rtcConf.useExternalIP then
          getNAT1to1IPsForConf env.localIPsResult env.arrived
        else
          .ok none
      else .ok none
    match natRes with
    | .error e => .error e
    | .ok nat1to1IPs =>
      let packetBufferSize :=
        if rtcConf.packetBufferSize = 0 then 500 else rtcConf.packetBufferSize
      let udpMux : Option UDPMuxHandle := none
      let udpStep : Except String (List NetworkType) :=
        if ¬rtcConf.forceTCP then
          let networkTypes := [NetworkType.udp4, NetworkType.udp6]
          if rtcConf.icePortRangeStart ≠ 0 ∧ rtcConf.icePortRangeEnd ≠ 0 then
            match env.ephemeralPortRangeResult with
            | .error e => .error e
            | .ok _ => .ok networkTypes
          else if rtcConf.udpPort ≠ 0 then
            match env.newMultiUDPMuxResult with
            | .error e => .error e
            | .ok _shadowedUdpMux => .ok networkTypes
          else .ok networkTypes
        else .ok []
      match udpStep with
      | .error e => .error e
      | .ok udpNetworkTypes =>
        let tcpStep : Except String (List NetworkType × Option TCPListenerHandle) :=
          if rtcConf.tcpPort ≠ 0 then
            match env.listenTCPResult with
            | .error e => .error e
            | .ok l => .ok (udpNetworkTypes ++ [NetworkType.tcp4, NetworkType.tcp6], some l)
          else .ok (udpNetworkTypes, none)
        match tcpStep with
        | .error e => .error e
        | .ok (networkTypes, tcpListener) =>
          if networkTypes.length = 0 then
            .error "TCP is forced but not configured"
          else
            .ok
              { receiver := { packetBufferSize := packetBufferSize }
                udpMux := udpMux
                tcpMuxListener := tcpListener
                publisher := publisherConfig
                subscriber :=
                  subscriberConfigFor rtcConf.strictACKs rtcConf.congestionControl.useSendSideBWE
                nat1To1IPs := nat1to1IPs
                useMDNS := rtcConf.useMDNS }

/-- The error-free outcomes of the external calls that can fire before the
network-type check when TCP is forced and no TCP port is set: CIDR parsing
for the IP filter, and local-interface enumeration for the resolver. -/
def earlyStepsOk (conf : Config) (externalIP : String) (env : ExternalEnv) : Prop :=
  ((conf.rtc.ips.includes.length ≠ 0 ∨ conf.rtc.ips.excludes.length ≠ 0) →
    ∃ f, IPFilterFromConf env.parseCIDR conf.rtc.ips.includes conf.rtc.ips.excludes = .ok f) ∧
  ((externalIP ≠ "" ∧ conf.rtc.useExternalIP) → ∃ ips, env.localIPsResult = .ok ips)

/-- A sample configuration: no filters, no external IP, no port range, UDP
port 7882 (so the multi-UDP mux branch is taken), no TCP port, TCP not
forced, send-side bandwidth estimation enabled. -/
def sampleRTC : RTCConfig where
  interfaces := ⟨[], []⟩
  ips := ⟨[], []⟩
  useMDNS := false
  useExternalIP := false
  nodeIP := ""
  nodeIPAutoGenerated := true
  packetBufferSize := 0
  forceTCP := false
  icePortRangeStart := 0
  icePortRangeEnd := 0
  udpPort := 7882
  tcpPort := 0
  enableLoopbackCandidate := false
  useICELite := false
  stunServers := []
  strictACKs := false
  congestionControl := ⟨true⟩

def sampleConf : Config := ⟨sampleRTC, false⟩

/-- `sampleConf` with a non-zero packet buffer size. -/
def sampleConfBuf : Config := ⟨{ sampleRTC with packetBufferSize := 800 }, false⟩

/-- An environment in which every external call succeeds; the multi-UDP
mux construction returns the (live) handle 1. -/
def sampleEnv : ExternalEnv where
  parseCIDR := fun _ => none
  ephemeralPortRangeResult := .ok ()
  newMultiUDPMuxResult := .ok ⟨1⟩
  listenTCPResult := .ok ⟨1⟩
  localIPsResult := .ok []
  arrived := []

/-- The value `NewWebRTCConfig sampleConf "" sampleEnv` returns. -/
def sampleResult : WebRTCConfig where
  receiver := ⟨500⟩
  udpMux := none
  tcpMuxListener := none
  publisher := publisherConfig
  subscriber := subscriberConfigFor false true
  nat1To1IPs := none
  useMDNS := false

/-! ### Theorems -/

/-- C4: for the interface-name filter and the IP filter: a non-empty
include set makes membership (for CIDRs: containment in some member)
necessary and sufficient, excludes being ignored; with an empty include
set and a non-empty exclude set, acceptance is exactly non-membership in
the exclude set; with both sets empty, everything is accepted. -/
theorem filter_include_exclude_semantics
    (nameInc nameExc : List String) (s : String)
    (netInc netExc : List IPNet) (addr : Nat) :
    (nameInc ≠ [] →
      (InterfaceFilterFromConf nameInc nameExc s = true ↔ s ∈ nameInc)) ∧
    (nameInc = [] → nameExc ≠ [] →
      (InterfaceFilterFromConf nameInc nameExc s = true ↔ s ∉ nameExc)) ∧
    (nameInc = [] → nameExc = [] →
      InterfaceFilterFromConf nameInc nameExc s = true) ∧
    (netInc ≠ [] →
      (ipFilterFromNets netInc netExc addr = true ↔
        ∃ n ∈ netInc, n.containsIP addr = true)) ∧
    (netInc = [] → netExc ≠ [] →
      (ipFilterFromNets netInc netExc addr = true ↔
        ∀ n ∈ netExc, n.containsIP addr = false)) ∧
    (netInc = [] → netExc = [] →
      ipFilterFromNets netInc netExc addr = true) := by
  refine ⟨?_, ?_, ?_, ?_, ?_, ?_⟩
  · intro h
    have hlen : nameInc.length > 0 := List.length_pos.mpr h
    simp only [InterfaceFilterFromConf, if_pos hlen, List.any_eq_true, beq_iff_eq]
    constructor
    · rintro ⟨x, hx, rfl⟩; exact hx
    · intro hs; exact ⟨s, hs, rfl⟩
  · intro h h'
    subst h
    have hlen : nameExc.length > 0 := List.length_pos.mpr h'
    simp only [InterfaceFilterFromConf, List.length_nil, gt_iff_lt, Nat.lt_irrefl, if_false,
      if_pos hlen, List.any_eq_true, beq_iff_eq]
    by_cases hmem : s ∈ nameExc
    · simp only [if_pos (show ∃ x ∈ nameExc, x = s from ⟨s, hmem, rfl⟩)]
      constructor
      · intro hfalse; cases hfalse
      · intro hns; exact absurd hmem hns
    · have hno : ¬ ∃ x ∈ nameExc, x = s := by
        rintro ⟨x, hx, rfl⟩; exact hmem hx
      simp only [if_neg hno]
      constructor
      · intro _; exact hmem
      · intro _; trivial
  · intro h h'
    subst h; subst h'
    simp [InterfaceFilterFromConf]
  · intro h
    have hlen : netInc.length > 0 := List.length_pos.mpr h
    simp only [ipFilterFromNets, if_pos hlen, List.any_eq_true]
  · intro h h'
    subst h
    have hlen : netExc.length > 0 := List.length_pos.mpr h'
    simp only [ipFilterFromNets, List.length_nil, gt_iff_lt, Nat.lt_irrefl, if_false,
      if_pos hlen, List.any_eq_true]
    by_cases hmem : ∃ n ∈ netExc, n.containsIP addr = true
    · simp only [if_pos hmem]
      obtain ⟨n, hn, hc⟩ := hmem
      constructor
      · intro hfalse; cases hfalse
      · intro hall
        have := hall n hn
        rw [hc] at this; cases this
    · simp only [if_neg hmem]
      constructor
      · intro _ n hn
        by_contra hne
        exact hmem ⟨n, hn, by simpa using hne⟩
      · intro _; trivial
  · intro h h'
    subst h; subst h'
    simp [ipFilterFromNets]

/-- Witness for C4: concrete instances of each of the six cases. -/
theorem filter_include_exclude_semantics_witness :
    InterfaceFilterFromConf ["eth0"] ["eth1"] "eth0" = true ∧
    InterfaceFilterFromConf [] ["lo"] "eth0" = true ∧
    InterfaceFilterFromConf [] [] "any" = true ∧
    ipFilterFromNets [⟨8, 255⟩] [] 8 = true ∧
    ipFilterFromNets [] [⟨9, 255⟩] 8 = true ∧
    ipFilterFromNets [] [] 8 = true := by
  refine ⟨?_, ?_, ?_, ?_, ?_, ?_⟩
  · exact ((filter_include_exclude_semantics ["eth0"] ["eth1"] "eth0" [] [] 0).1
      (by simp)).mpr (by simp)
  · exact ((filter_include_exclude_semantics [] ["lo"] "eth0" [] [] 0).2.1
      rfl (by simp)).mpr (by simp)
  · exact (filter_include_exclude_semantics [] [] "any" [] [] 0).2.2.1 rfl rfl
  · exact ((filter_include_exclude_semantics [] [] "" [⟨8, 255⟩] [] 8).2.2.2.1
      (by simp)).mpr ⟨⟨8, 255⟩, by simp, by decide⟩
  · exact ((filter_include_exclude_semantics [] [] "" [] [⟨9, 255⟩] 8).2.2.2.2.1
      rfl (by simp)).mpr (by decide)
  · exact (filter_include_exclude_semantics [] [] "" [] [] 8).2.2.2.2.2 rfl rfl

/-- C7: the candidate UDP port set is 5 random ports from the configured
contiguous range when both ends are non-zero, else the single fixed UDP
port when one is configured, else the wildcard port 0. -/
theorem udp_port_selection (rangeStart rangeEnd udpPort : Nat) (r : Nat → Nat) :
    (rangeStart ≠ 0 → rangeEnd ≠ 0 → rangeStart < 65536 → rangeEnd < 65536 →
      rangeStart < rangeEnd →
      (udpPortsForConf rangeStart rangeEnd udpPort r).length = 5 ∧
      ∀ p ∈ udpPortsForConf rangeStart rangeEnd udpPort r,
        rangeStart ≤ p ∧ p < rangeEnd) ∧
    ((rangeStart = 0 ∨ rangeEnd = 0) → udpPort ≠ 0 →
      udpPortsForConf rangeStart rangeEnd udpPort r = [udpPort]) ∧
    ((rangeStart = 0 ∨ rangeEnd = 0) → udpPort = 0 →
      udpPortsForConf rangeStart rangeEnd udpPort r = [0]) := by
  refine ⟨?_, ?_, ?_⟩
  · intro hs he hsb heb hlt
    have hmods : rangeStart % 65536 = rangeStart := Nat.mod_eq_of_lt hsb
    have hmode : rangeEnd % 65536 = rangeEnd := Nat.mod_eq_of_lt heb
    have hdiff : (65536 + rangeEnd - rangeStart) % 65536 = rangeEnd - rangeStart := by
      have h1 : 65536 + rangeEnd - rangeStart = 65536 + (rangeEnd - rangeStart) := by
        omega
      rw [h1, Nat.add_mod_left]
      exact Nat.mod_eq_of_lt (by omega)
    simp only [udpPortsForConf, if_pos (And.intro hs he), hmods, hmode, hdiff]
    constructor
    · simp
    · intro p hp
      simp only [List.mem_map, List.mem_range] at hp
      obtain ⟨i, _, rfl⟩ := hp
      have hpos : 0 < rangeEnd - rangeStart := by omega
      have := Nat.mod_lt (r i) hpos
      omega
  · intro h h'
    have hcond : ¬ (rangeStart ≠ 0 ∧ rangeEnd ≠ 0) := by
      rcases h with h | h <;> simp [h]
    simp [udpPortsForConf, hcond, h']
  · intro h h'
    have hcond : ¬ (rangeStart ≠ 0 ∧ rangeEnd ≠ 0) := by
      rcases h with h | h <;> simp [h]
    simp [udpPortsForConf, hcond, h']

/-- Witness for C7: a range [10000, 10005) yields 5 in-range ports; a
fixed UDP port 7882 yields exactly that port; no configuration yields
port 0. -/
theorem udp_port_selection_witness :
    ((udpPortsForConf 10000 10005 0 fun i => i).length = 5 ∧
      ∀ p ∈ udpPortsForConf 10000 10005 0 (fun i => i), 10000 ≤ p ∧ p < 10005) ∧
    udpPortsForConf 0 0 7882 (fun i => i) = [7882] ∧
    udpPortsForConf 0 0 0 (fun i => i) = [0] := by
  refine ⟨?_, ?_, ?_⟩
  · exact (udp_port_selection 10000 10005 0 fun i => i).1
      (by decide) (by decide) (by decide) (by decide) (by decide)
  · exact (udp_port_selection 0 0 7882 fun i => i).2.1 (Or.inl rfl) (by decide)
  · exact (udp_port_selection 0 0 0 fun i => i).2.2 (Or.inl rfl) rfl

/-- C8: characterization of one local IP's probe loop. After any prefix of
ports that all fail with "address already in use": a successful port
reports its external IP and stops there (later ports unattempted); any
other failure stops there without a result; and if every port fails with
"address already in use", all ports are attempted and no result is
reported. -/
theorem probe_loop_characterization (outcome : Nat → ProbeOutcome) :
    (∀ (busy : List Nat) (p : Nat) (rest : List Nat) (e : String),
      (∀ q ∈ busy, outcome q = .addrInUse) → outcome p = .success e →
      probeRun outcome (busy ++ p :: rest) = (busy ++ [p], some e)) ∧
    (∀ (busy : List Nat) (p : Nat) (rest : List Nat),
      (∀ q ∈ busy, outcome q = .addrInUse) → outcome p = .otherError →
      probeRun outcome (busy ++ p :: rest) = (busy ++ [p], none)) ∧
    (∀ ports : List Nat,
      (∀ q ∈ ports, outcome q = .addrInUse) →
      probeRun outcome ports = (ports, none)) := by
  refine ⟨?_, ?_, ?_⟩
  · intro busy p rest e hbusy hp
    induction busy with
    | nil => simp [probeRun, hp]
    | cons q qs ih =>
      have hq : outcome q = .addrInUse := hbusy q (by simp)
      have ih' := ih fun x hx => hbusy x (by simp [hx])
      simp [probeRun, hq, ih']
  · intro busy p rest hbusy hp
    induction busy with
    | nil => simp [probeRun, hp]
    | cons q qs ih =>
      have hq : outcome q = .addrInUse := hbusy q (by simp)
      have ih' := ih fun x hx => hbusy x (by simp [hx])
      simp [probeRun, hq, ih']
  · intro ports hall
    induction ports with
    | nil => simp [probeRun]
    | cons q qs ih =>
      have hq : outcome q = .addrInUse := hall q (by simp)
      have ih' := ih fun x hx => hall x (by simp [hx])
      simp [probeRun, hq, ih']

/-- Witness for C8: with port 1 busy, port 2 succeeding and port 3 never
attempted, the probe reports the external IP discovered on port 2. -/
theorem probe_loop_characterization_witness :
    probeRun
      (fun p => if p = 1 then ProbeOutcome.addrInUse
        else if p = 2 then ProbeOutcome.success "203.0.113.5"
        else ProbeOutcome.otherError)
      [1, 2, 3] = ([1, 2], some "203.0.113.5") := by
  exact (probe_loop_characterization _).1 [1] 2 [3] "203.0.113.5"
    (by intro q hq; simp at hq; simp [hq]) (by simp)

/-- C9: with an empty (or fully filtered-out) local-IP list no result can
arrive, so resolution returns Go's `(nil, nil)`: no mapping list and no
error. -/
theorem resolver_empty_localIPs_nil_nil (localIPs : List String)
    (ipFilter : String → Bool) (outcome : String → Nat → ProbeOutcome)
    (ports : List Nat) (arrived : List (String × String))
    (hcons : ArrivedConsistent localIPs ipFilter outcome ports arrived)
    (hempty : localIPs.filter ipFilter = []) :
    getNAT1to1IPsForConf (.ok localIPs) arrived = .ok none := by
  have harr : arrived = [] := by
    cases arrived with
    | nil => rfl
    | cons a rest =>
      have := (hcons.1 a (by simp)).1
      rw [hempty] at this
      simp at this
  subst harr
  simp [getNAT1to1IPsForConf, collectMappings]

/-- Witness for C9: one local IP rejected by the filter; resolution
returns `(nil, nil)`. -/
theorem resolver_empty_localIPs_nil_nil_witness :
    getNAT1to1IPsForConf (.ok ["10.0.0.1"]) [] = .ok none := by
  exact resolver_empty_localIPs_nil_nil ["10.0.0.1"] (fun _ => false)
    (fun _ _ => ProbeOutcome.otherError) [0] []
    (by constructor
        · intro m hm; simp at hm
        · simp)
    (by simp)

/-- C1 counterexample: one local IP, every probe fails, so nothing
arrives; resolution returns `(nil, nil)` — not the self-mapped entry
`"10.0.0.1/10.0.0.1"` the claim requires. -/
theorem all_probes_fail_counterexample :
    ArrivedConsistent ["10.0.0.1"] (fun _ => true)
      (fun _ _ => ProbeOutcome.otherError) [0] [] ∧
    (∀ lip ∈ (["10.0.0.1"] : List String).filter (fun _ => true),
      (probeRun ((fun _ _ => ProbeOutcome.otherError) lip) [0]).2 = none) ∧
    getNAT1to1IPsForConf (.ok ["10.0.0.1"]) [] = .ok none ∧
    getNAT1to1IPsForConf (.ok ["10.0.0.1"]) [] ≠ .ok (some ["10.0.0.1/10.0.0.1"]) := by
  refine ⟨⟨?_, ?_⟩, ?_, ?_, ?_⟩
  · intro m hm; simp at hm
  · simp
  · intro lip _; rfl
  · rfl
  · intro h
    simp [getNAT1to1IPsForConf, collectMappings] at h

/-- C1 (amended): if every launched probe fails, no result arrives and
resolution returns `(nil, nil)` — no error, but also no self-mapped
entries; the self-mapping fallback only runs when at least one probe
succeeded. -/
theorem all_probes_fail_nil_nil (localIPs : List String)
    (ipFilter : String → Bool) (outcome : String → Nat → ProbeOutcome)
    (ports : List Nat) (arrived : List (String × String))
    (hcons : ArrivedConsistent localIPs ipFilter outcome ports arrived)
    (hfail : ∀ lip ∈ localIPs.filter ipFilter, (probeRun (outcome lip) ports).2 = none) :
    getNAT1to1IPsForConf (.ok localIPs) arrived = .ok none := by
  have harr : arrived = [] := by
    cases arrived with
    | nil => rfl
    | cons a rest =>
      have h1 := hcons.1 a (by simp)
      have h2 := hfail a.2 h1.1
      rw [h1.2] at h2
      cases h2
  subst harr
  simp [getNAT1to1IPsForConf, collectMappings]

/-- Witness for C1 (amended): a non-empty local-IP list whose only probe
errors out; resolution returns `(nil, nil)`. -/
theorem all_probes_fail_nil_nil_witness :
    getNAT1to1IPsForConf (.ok ["192.168.1.7"]) [] = .ok none := by
  exact all_probes_fail_nil_nil ["192.168.1.7"] (fun _ => true)
    (fun _ _ => ProbeOutcome.otherError) [0] []
    (by constructor
        · intro m hm; simp at hm
        · simp)
    (by intro lip _; rfl)

/-! ### Association-list map lemmas -/

theorem nodup_append_singleton {α : Type} (l : List α) (a : α)
    (h : l.Nodup) (ha : a ∉ l) : (l ++ [a]).Nodup := by
  rw [List.nodup_append_comm]
  simpa using ⟨ha, h⟩

theorem mapLookup_eq_none_iff (m : List (String × String)) (k : String) :
    mapLookup m k = none ↔ k ∉ m.map Prod.fst := by
  induction m with
  | nil => simp [mapLookup]
  | cons p rest ih =>
    by_cases h : p.1 = k
    · simp [mapLookup, h]
    · have hbeq : (p.1 == k) = false := by simpa using h
      simp only [mapLookup, hbeq, Bool.false_eq_true, if_false, List.map_cons,
        List.mem_cons, ih]
      constructor
      · intro hn hor
        rcases hor with hor | hor
        · exact h hor.symm
        · exact hn hor
      · intro hn hmem
        exact hn (Or.inr hmem)

theorem mapLookup_isSome_mem (m : List (String × String)) (k w : String)
    (h : mapLookup m k = some w) : k ∈ m.map Prod.fst := by
  by_contra hn
  rw [← mapLookup_eq_none_iff] at hn
  rw [h] at hn
  cases hn

/-- When the key is absent, map assignment appends the binding. -/
theorem mapInsert_not_mem (m : List (String × String)) (k v : String)
    (h : k ∉ m.map Prod.fst) : mapInsert m k v = m ++ [(k, v)] := by
  induction m with
  | nil => rfl
  | cons p rest ih =>
    simp only [List.map_cons, List.mem_cons, not_or] at h
    have hbeq : (p.1 == k) = false := by
      simp only [beq_eq_false_iff_ne, ne_eq]
      intro he; exact h.1 he.symm
    simp [mapInsert, hbeq, ih h.2]

/-- When the key is present, map assignment leaves the key list unchanged. -/
theorem mapInsert_keys_mem (m : List (String × String)) (k v : String)
    (h : k ∈ m.map Prod.fst) : (mapInsert m k v).map Prod.fst = m.map Prod.fst := by
  induction m with
  | nil => simp at h
  | cons p rest ih =>
    by_cases hp : p.1 = k
    · simp [mapInsert, hp]
    · have hbeq : (p.1 == k) = false := by simpa using hp
      simp only [List.map_cons, List.mem_cons] at h
      rcases h with h | h
      · exact absurd h.symm hp
      · simp [mapInsert, hbeq, ih h]

/-- Each collector step either drops the arrival (key already solved) or
appends it. -/
theorem collectStep_cases (acc : List (String × String)) (a : String × String) :
    (collectStep acc a = acc ∧ a.1 ∈ acc.map Prod.fst) ∨
    (collectStep acc a = acc ++ [a] ∧ a.1 ∉ acc.map Prod.fst) := by
  unfold collectStep
  cases h : mapLookup acc a.1 with
  | none =>
    right
    have hnot := (mapLookup_eq_none_iff acc a.1).mp h
    exact ⟨mapInsert_not_mem acc a.1 a.2 hnot, hnot⟩
  | some w =>
    left
    exact ⟨rfl, mapLookup_isSome_mem acc a.1 w h⟩

/-- The collector never reorders: its result is a subsequence of the
arrivals (after the initial accumulator). -/
theorem foldl_collectStep_sublist (arr : List (String × String)) :
    ∀ acc, List.Sublist (List.foldl collectStep acc arr) (acc ++ arr) := by
  induction arr with
  | nil => intro acc; simp
  | cons a rest ih =>
    intro acc
    rcases collectStep_cases acc a with ⟨heq, _⟩ | ⟨heq, _⟩
    · simp only [List.foldl_cons, heq]
      exact (ih acc).trans ((List.sublist_cons_self a rest).append_left acc)
    · simp only [List.foldl_cons, heq]
      have := ih (acc ++ [a])
      simpa using this

theorem collectMappings_sublist (arr : List (String × String)) :
    List.Sublist (collectMappings arr) arr := by
  have := foldl_collectStep_sublist arr []
  simpa [collectMappings] using this

/-- The collector's key column stays duplicate-free. -/
theorem foldl_collectStep_keys_nodup (arr : List (String × String)) :
    ∀ acc, (acc.map Prod.fst).Nodup →
      ((List.foldl collectStep acc arr).map Prod.fst).Nodup := by
  induction arr with
  | nil => intro acc h; simpa using h
  | cons a rest ih =>
    intro acc h
    rcases collectStep_cases acc a with ⟨heq, _⟩ | ⟨heq, hnot⟩
    · simp only [List.foldl_cons, heq]
      exact ih acc h
    · simp only [List.foldl_cons, heq]
      apply ih
      simp only [List.map_append, List.map_cons, List.map_nil]
      exact nodup_append_singleton _ _ h hnot

theorem collectMappings_keys_nodup (arr : List (String × String)) :
    ((collectMappings arr).map Prod.fst).Nodup := by
  have := foldl_collectStep_keys_nodup arr [] (by simp)
  simpa [collectMappings] using this

/-- The self-mapping fallback preserves a duplicate-free key column. -/
theorem addSelfMappings_keys_nodup (localIPs : List String) :
    ∀ m : List (String × String), (m.map Prod.fst).Nodup →
      ((addSelfMappings localIPs m).map Prod.fst).Nodup := by
  induction localIPs with
  | nil => intro m h; simpa [addSelfMappings] using h
  | cons lip rest ih =>
    intro m h
    unfold addSelfMappings
    by_cases hf : (m.any fun p => p.2 == lip) = true
    · rw [if_pos hf]
      exact ih m h
    · rw [if_neg hf]
      apply ih
      by_cases hk : lip ∈ m.map Prod.fst
      · rw [mapInsert_keys_mem m lip lip hk]; exact h
      · rw [mapInsert_not_mem m lip lip hk]
        simp only [List.map_append, List.map_cons, List.map_nil]
        exact nodup_append_singleton _ _ h hk

/-- Invariant of the self-mapping fallback: provided no mapping's external
key collides with a local IP other than its own local (which would make
the fallback overwrite it), the value column stays duplicate-free, every
existing entry survives, and every local IP ends up as a value. -/
theorem addSelfMappings_invariant (localIPs : List String) :
    ∀ m : List (String × String),
      (∀ q ∈ m, q.1 ∈ localIPs → q.1 = q.2) →
      (m.map Prod.snd).Nodup →
      ((addSelfMappings localIPs m).map Prod.snd).Nodup ∧
      (∀ q ∈ m, q ∈ addSelfMappings localIPs m) ∧
      (∀ lip ∈ localIPs, lip ∈ (addSelfMappings localIPs m).map Prod.snd) := by
  induction localIPs with
  | nil =>
    intro m _ hv
    refine ⟨by simpa [addSelfMappings] using hv, ?_, by simp⟩
    intro q hq
    simpa [addSelfMappings] using hq
  | cons lip rest ih =>
    intro m hcross hv
    unfold addSelfMappings
    by_cases hf : (m.any fun p => p.2 == lip) = true
    · rw [if_pos hf]
      have hmem : lip ∈ m.map Prod.snd := by
        simp only [List.any_eq_true, beq_iff_eq] at hf
        obtain ⟨p, hp, he⟩ := hf
        exact List.mem_map.mpr ⟨p, hp, he⟩
      obtain ⟨h1, h2, h3⟩ :=
        ih m (fun q hq hmem' => hcross q hq (List.mem_cons.mpr (Or.inr hmem'))) hv
      refine ⟨h1, h2, ?_⟩
      intro x hx
      rcases List.mem_cons.mp hx with rfl | hx'
      · obtain ⟨p, hp, he⟩ := List.mem_map.mp hmem
        exact List.mem_map.mpr ⟨p, h2 p hp, he⟩
      · exact h3 x hx'
    · rw [if_neg hf]
      have hval : lip ∉ m.map Prod.snd := by
        intro hmem
        apply hf
        obtain ⟨p, hp, he⟩ := List.mem_map.mp hmem
        simp only [List.any_eq_true, beq_iff_eq]
        exact ⟨p, hp, he⟩
      have hkey : lip ∉ m.map Prod.fst := by
        intro hkmem
        obtain ⟨p, hp, he⟩ := List.mem_map.mp hkmem
        have heq := hcross p hp (by rw [he]; exact List.mem_cons_self lip rest)
        exact hval (List.mem_map.mpr ⟨p, hp, by rw [← heq, he]⟩)
      rw [mapInsert_not_mem m lip lip hkey]
      have hcross' : ∀ q ∈ m ++ [(lip, lip)], q.1 ∈ rest → q.1 = q.2 := by
        intro q hq hqr
        rcases List.mem_append.mp hq with hq' | hq'
        · exact hcross q hq' (List.mem_cons.mpr (Or.inr hqr))
        · simp only [List.mem_singleton] at hq'
          subst hq'; rfl
      have hv' : ((m ++ [(lip, lip)]).map Prod.snd).Nodup := by
        simp only [List.map_append, List.map_cons, List.map_nil]
        exact nodup_append_singleton _ _ hv hval
      obtain ⟨h1, h2, h3⟩ := ih (m ++ [(lip, lip)]) hcross' hv'
      refine ⟨h1, ?_, ?_⟩
      · intro q hq
        exact h2 q (List.mem_append.mpr (Or.inl hq))
      · intro x hx
        rcases List.mem_cons.mp hx with rfl | hx'
        · exact List.mem_map.mpr ⟨(x, x), h2 (x, x) (by simp), rfl⟩
        · exact h3 x hx'

/-- C2 counterexample: the probe bound to local 10.0.0.1 discovers
external 10.0.0.2 — the address of another local IP whose own probe
failed. The fallback pass then assigns `natMapping["10.0.0.2"] =
"10.0.0.2"`, overwriting the discovered entry: local 10.0.0.1 appears
zero times as a value in the final mapping. -/
theorem nat_mapping_coverage_counterexample :
    ArrivedConsistent ["10.0.0.1", "10.0.0.2"] (fun _ => true)
      (fun lip _ => if lip == "10.0.0.1" then ProbeOutcome.success "10.0.0.2"
        else ProbeOutcome.otherError)
      [0] [("10.0.0.2", "10.0.0.1")] ∧
    natMappingFinal ["10.0.0.1", "10.0.0.2"] [("10.0.0.2", "10.0.0.1")]
      = [("10.0.0.2", "10.0.0.2")] ∧
    ((natMappingFinal ["10.0.0.1", "10.0.0.2"]
        [("10.0.0.2", "10.0.0.1")]).map Prod.snd).count "10.0.0.1" = 0 ∧
    getNAT1to1IPsForConf (.ok ["10.0.0.1", "10.0.0.2"]) [("10.0.0.2", "10.0.0.1")]
      = .ok (some ["10.0.0.2/10.0.0.2"]) := by
  refine ⟨⟨?_, ?_⟩, ?_, ?_, ?_⟩
  · intro m hm
    simp only [List.mem_singleton] at hm
    subst hm
    constructor
    · simp
    · rfl
  · simp
  · rfl
  · rfl
  · rfl

/-- C2 (amended): for every resolution run that returns a non-empty
mapping list, the external-IP keys of the final mapping are pairwise
distinct; and — provided no discovered external IP coincides with an
input local IP other than the one that discovered it (otherwise the
self-mapping fallback overwrites that discovery, dropping its local) —
every input local IP appears exactly once as a value of the final
mapping. -/
theorem nat_mapping_keys_unique_and_locals_covered
    (localIPs : List String) (ipFilter : String → Bool)
    (outcome : String → Nat → ProbeOutcome) (ports : List Nat)
    (arrived : List (String × String))
    (hcons : ArrivedConsistent localIPs ipFilter outcome ports arrived)
    (hcross : ∀ m ∈ arrived, m.1 ∈ localIPs → m.1 = m.2)
    (hne : collectMappings arrived ≠ []) :
    getNAT1to1IPsForConf (.ok localIPs) arrived
      = .ok (some ((natMappingFinal localIPs arrived).map fun p => p.1 ++ "/" ++ p.2)) ∧
    ((natMappingFinal localIPs arrived).map Prod.fst).Nodup ∧
    ∀ lip ∈ localIPs, ((natMappingFinal localIPs arrived).map Prod.snd).count lip = 1 := by
  have hsub := collectMappings_sublist arrived
  have hvals0 : ((collectMappings arrived).map Prod.snd).Nodup :=
    hcons.2.sublist (hsub.map Prod.snd)
  have hcross0 : ∀ q ∈ collectMappings arrived, q.1 ∈ localIPs → q.1 = q.2 :=
    fun q hq => hcross q (hsub.subset hq)
  obtain ⟨h1, _h2, h3⟩ :=
    addSelfMappings_invariant localIPs (collectMappings arrived) hcross0 hvals0
  refine ⟨?_, ?_, ?_⟩
  · have hlen : ¬ (collectMappings arrived).length = 0 := by
      simpa [List.length_eq_zero] using hne
    simp [getNAT1to1IPsForConf, natMappingFinal, hlen]
  · exact addSelfMappings_keys_nodup localIPs _ (collectMappings_keys_nodup arrived)
  · intro lip hlip
    exact List.count_eq_one_of_mem h1 (h3 lip hlip)

/-- Witness for C2 (amended): local 10.0.0.1 discovers external
203.0.113.5, local 10.0.0.2's probe fails and is self-mapped; keys are
distinct and each local appears exactly once as a value. -/
theorem nat_mapping_keys_unique_and_locals_covered_witness :
    getNAT1to1IPsForConf (.ok ["10.0.0.1", "10.0.0.2"]) [("203.0.113.5", "10.0.0.1")]
      = .ok (some ["203.0.113.5/10.0.0.1", "10.0.0.2/10.0.0.2"]) ∧
    ((natMappingFinal ["10.0.0.1", "10.0.0.2"]
        [("203.0.113.5", "10.0.0.1")]).map Prod.fst).Nodup ∧
    ((natMappingFinal ["10.0.0.1", "10.0.0.2"]
        [("203.0.113.5", "10.0.0.1")]).map Prod.snd).count "10.0.0.1" = 1 ∧
    ((natMappingFinal ["10.0.0.1", "10.0.0.2"]
        [("203.0.113.5", "10.0.0.1")]).map Prod.snd).count "10.0.0.2" = 1 := by
  have h := nat_mapping_keys_unique_and_locals_covered
    ["10.0.0.1", "10.0.0.2"] (fun _ => true)
    (fun lip _ => if lip == "10.0.0.1" then ProbeOutcome.success "203.0.113.5"
      else ProbeOutcome.otherError)
    [0] [("203.0.113.5", "10.0.0.1")]
    (by constructor
        · intro m hm
          simp only [List.mem_singleton] at hm
          subst hm
          exact ⟨by simp, rfl⟩
        · simp)
    (by intro m hm
        simp only [List.mem_singleton] at hm
        subst hm
        intro hmem
        simp at hmem)
    (by simp [collectMappings, collectStep, mapLookup, mapInsert])
  refine ⟨?_, h.2.1, ?_, ?_⟩
  · rw [h.1]; rfl
  · exact h.2.2 "10.0.0.1" (by simp)
  · exact h.2.2 "10.0.0.2" (by simp)

/-! ### Transport configuration builder theorems -/

/-- On a successful interface enumeration the resolver never returns an
error. -/
theorem getNAT1to1IPsForConf_ok_eq (localIPs : List String)
    (arrived : List (String × String)) :
    getNAT1to1IPsForConf (.ok localIPs) arrived =
      .ok (if (collectMappings arrived).length = 0 then none
        else some ((addSelfMappings localIPs (collectMappings arrived)).map
          fun p => p.1 ++ "/" ++ p.2)) := by
  unfold getNAT1to1IPsForConf
  by_cases h : (collectMappings arrived).length = 0 <;> simp [h]

/-- Every successful `NewWebRTCConfig` run returns the record built at
config.go lines 261-273: a nil `UDPMux`, the fixed publisher profile, the
subscriber profile selected by the send-side-BWE flag, and the defaulted
packet buffer size. -/
theorem NewWebRTCConfig_ok_fields (conf : Config) (externalIP : String)
    (env : ExternalEnv) (res : WebRTCConfig)
    (h : NewWebRTCConfig conf externalIP env = .ok res) :
    res.udpMux = none ∧
    res.subscriber =
      subscriberConfigFor conf.rtc.strictACKs conf.rtc.congestionControl.useSendSideBWE ∧
    res.publisher = publisherConfig ∧
    res.receiver.packetBufferSize =
      (if conf.rtc.packetBufferSize = 0 then 500 else conf.rtc.packetBufferSize) ∧
    res.useMDNS = conf.rtc.useMDNS := by
  simp only [NewWebRTCConfig] at h
  split at h
  · exact Except.noConfusion h
  · split at h
    · exact Except.noConfusion h
    · split at h
      · exact Except.noConfusion h
      · split at h
        · exact Except.noConfusion h
        · split at h
          · exact Except.noConfusion h
          · injection h with h
            subst h
            exact ⟨rfl, rfl, rfl, rfl, rfl⟩

/-- C3: whenever `NewWebRTCConfig` succeeds, the returned `UDPMux` field
is nil: the multiplexer constructed in the UDP branch is bound to a
shadowing local variable (config.go line 151) and never reaches the
returned struct. -/
theorem returned_udpMux_is_nil (conf : Config) (externalIP : String)
    (env : ExternalEnv) (res : WebRTCConfig)
    (h : NewWebRTCConfig conf externalIP env = .ok res) :
    res.udpMux = none :=
  (NewWebRTCConfig_ok_fields conf externalIP env res h).1

/-- Witness for C3: a configuration with UDP port 7882 (no forced TCP, no
port range), whose mux construction succeeds with handle 1 — the returned
`udpMux` is still nil. -/
theorem returned_udpMux_is_nil_witness :
    NewWebRTCConfig sampleConf "" sampleEnv = .ok sampleResult ∧
    sampleResult.udpMux = none := by
  have h1 : NewWebRTCConfig sampleConf "" sampleEnv = .ok sampleResult := by rfl
  exact ⟨h1, returned_udpMux_is_nil sampleConf "" sampleEnv sampleResult h1⟩

/-- C5: the subscriber profile's video header extensions contain the
transport-wide-CC URI exactly when send-side BWE is enabled and the
abs-send-time URI exactly when it is disabled, and its video feedback
contains transport-CC feedback exactly when enabled and REMB exactly when
disabled; and a successful build returns exactly this profile as the
subscriber. -/
theorem subscriber_bwe_profile (sa bwe : Bool) (conf : Config)
    (externalIP : String) (env : ExternalEnv) (res : WebRTCConfig) :
    ((subscriberConfigFor sa bwe).rtpHeaderExtension.video.contains TransportCCURI) = bwe ∧
    ((subscriberConfigFor sa bwe).rtpHeaderExtension.video.contains ABSSendTimeURI) = !bwe ∧
    ((subscriberConfigFor sa bwe).rtcpFeedback.video.any
      fun f => f.typ == TypeRTCPFBTransportCC) = bwe ∧
    ((subscriberConfigFor sa bwe).rtcpFeedback.video.any
      fun f => f.typ == TypeRTCPFBGoogREMB) = !bwe ∧
    (NewWebRTCConfig conf externalIP env = .ok res →
      res.subscriber =
        subscriberConfigFor conf.rtc.strictACKs conf.rtc.congestionControl.useSendSideBWE) := by
  refine ⟨?_, ?_, ?_, ?_,
    fun h => (NewWebRTCConfig_ok_fields conf externalIP env res h).2.1⟩
  all_goals cases bwe <;> rfl

/-- Witness for C5: the sample build (send-side BWE enabled) returns a
subscriber whose video extensions include transport-wide CC and exclude
abs-send-time. -/
theorem subscriber_bwe_profile_witness :
    ((subscriberConfigFor false true).rtpHeaderExtension.video.contains TransportCCURI)
      = true ∧
    ((subscriberConfigFor false true).rtpHeaderExtension.video.contains ABSSendTimeURI)
      = false ∧
    sampleResult.subscriber = subscriberConfigFor false true := by
  have h := subscriber_bwe_profile false true sampleConf "" sampleEnv sampleResult
  exact ⟨h.1, by simpa using h.2.1, h.2.2.2.2 (by rfl)⟩

/-- C6: with TCP forced and no TCP port configured, no network type is
ever enabled, so `NewWebRTCConfig` never succeeds; and when the earlier
external steps succeed, the error is exactly the configuration error
"TCP is forced but not configured". -/
theorem forceTCP_without_port_fails (conf : Config) (externalIP : String)
    (env : ExternalEnv)
    (hforce : conf.rtc.forceTCP = true) (hport : conf.rtc.tcpPort = 0) :
    (∀ res, NewWebRTCConfig conf externalIP env ≠ .ok res) ∧
    (earlyStepsOk conf externalIP env →
      NewWebRTCConfig conf externalIP env = .error "TCP is forced but not configured") := by
  constructor
  · intro res hok
    simp only [NewWebRTCConfig, hforce, hport] at hok
    split at hok
    · exact Except.noConfusion hok
    · split at hok
      · exact Except.noConfusion hok
      · simp at hok
  · intro hearly
    obtain ⟨he1, he2⟩ := hearly
    have hS1 : ∃ v,
        (if conf.rtc.ips.includes.length ≠ 0 ∨ conf.rtc.ips.excludes.length ≠ 0 then
          match IPFilterFromConf env.parseCIDR conf.rtc.ips.includes conf.rtc.ips.excludes with
          | .error e => (.error e : Except String (Option (Nat → Bool)))
          | .ok f => .ok (some f)
        else .ok none) = .ok v := by
      by_cases h1 : conf.rtc.ips.includes.length ≠ 0 ∨ conf.rtc.ips.excludes.length ≠ 0
      · obtain ⟨f, hf⟩ := he1 h1
        rw [if_pos h1, hf]
        exact ⟨some f, rfl⟩
      · rw [if_neg h1]
        exact ⟨none, rfl⟩
    have hS2 : ∃ v,
        (if externalIP ≠ "" ∧ (conf.rtc.useExternalIP ∨
            (conf.rtc.nodeIP ≠ "" ∧ ¬conf.rtc.nodeIPAutoGenerated)) then
          if conf.rtc.useExternalIP then
            getNAT1to1IPsForConf env.localIPsResult env.arrived
          else .ok none
        else .ok none) = .ok v := by
      by_cases h2 : externalIP ≠ "" ∧ (conf.rtc.useExternalIP ∨
          (conf.rtc.nodeIP ≠ "" ∧ ¬conf.rtc.nodeIPAutoGenerated))
      · rw [if_pos h2]
        by_cases h3 : conf.rtc.useExternalIP = true
        · simp only [h3, if_true]
          obtain ⟨ips, hips⟩ := he2 ⟨h2.1, h3⟩
          rw [hips, getNAT1to1IPsForConf_ok_eq]
          exact ⟨_, rfl⟩
        · rw [if_neg (by simpa using h3)]
          exact ⟨none, rfl⟩
      · rw [if_neg h2]
        exact ⟨none, rfl⟩
    obtain ⟨v1, hv1⟩ := hS1
    obtain ⟨v2, hv2⟩ := hS2
    simp only [NewWebRTCConfig, hforce, hport, hv1, hv2]
    simp

/-- Witness for C6: TCP forced, TCP port 0, all external steps fine — the
build fails with the configuration error. -/
theorem forceTCP_without_port_fails_witness :
    NewWebRTCConfig ⟨{ sampleRTC with forceTCP := true, udpPort := 0 }, false⟩ "" sampleEnv
      = .error "TCP is forced but not configured" := by
  exact (forceTCP_without_port_fails ⟨{ sampleRTC with forceTCP := true, udpPort := 0 }, false⟩
    "" sampleEnv rfl rfl).2
    ⟨fun h => by simp [sampleRTC] at h, fun h => by simp [sampleRTC] at h⟩

/-- C10: every successful build returns a receiver packet buffer size of
500 when the configured size is 0, and the configured size unchanged
otherwise. -/
theorem packet_buffer_size_default (conf : Config) (externalIP : String)
    (env : ExternalEnv) (res : WebRTCConfig)
    (h : NewWebRTCConfig conf externalIP env = .ok res) :
    res.receiver.packetBufferSize =
      (if conf.rtc.packetBufferSize = 0 then 500 else conf.rtc.packetBufferSize) :=
  (NewWebRTCConfig_ok_fields conf externalIP env res h).2.2.2.1

/-- Witness for C10: the sample configuration (buffer size 0) yields 500;
with buffer size 800 it is returned unchanged. -/
theorem packet_buffer_size_default_witness :
    sampleResult.receiver.packetBufferSize = 500 ∧
    ({ sampleResult with receiver := ⟨800⟩ } : WebRTCConfig).receiver.packetBufferSize
      = 800 := by
  constructor
  · have h1 : NewWebRTCConfig sampleConf "" sampleEnv = .ok sampleResult := by rfl
    have := packet_buffer_size_default sampleConf "" sampleEnv sampleResult h1
    simpa [sampleConf, sampleRTC] using this
  · have h2 : NewWebRTCConfig sampleConfBuf "" sampleEnv
        = .ok { sampleResult with receiver := ⟨800⟩ } := by rfl
    have h3 := packet_buffer_size_default sampleConfBuf "" sampleEnv _ h2
    simp only [sampleConfBuf, sampleRTC] at h3
    exact h3

end RtcCfg
